import Mathlib

/-!
Verification of the equilibria health trade-off engine.

This file gives a shallow embedding, in Lean 4, of the decision core of the
repository: the constraint evaluator (src/agents/constraint_evaluator.py),
the priority matrix and trade-off engine (src/agents/tradeoff_engine.py),
the heuristic health-council consensus (src/agents/health_council.py) and
the burnout predictor (src/agents/burnout_predictor.py), together with the
data model (src/models/health_state.py, src/models/decision.py,
src/models/user_profile.py).

Conventions of the embedding:
* Python floats are modelled as rationals (ℚ); Python ints as ℤ.
* Python `datetime` timestamps are modelled as rationals measured in days,
  so that `datetime.now() - timedelta(days=7)` becomes `now - 7`.
* Free-text fields that never influence control flow (a constraint's
  `description` and `source`, a future impact's `description`, the
  priority-adjustment trace) are omitted from the corresponding
  structures; every string that any embedded function branches on or that
  a claim mentions is kept.
-/

namespace Equilibria

/-- The four health domains (HealthDomain enum in src/models/decision.py). -/
inductive HealthDomain where
  | recovery
  | nutrition
  | fitness
  | mindfulness
deriving DecidableEq, Repr

/-- The string value of a domain (the enum member values). -/
def HealthDomain.val : HealthDomain → String
  | .recovery => "recovery"
  | .nutrition => "nutrition"
  | .fitness => "fitness"
  | .mindfulness => "mindfulness"

/-- Decision actions (DecisionAction enum in src/models/decision.py). -/
inductive DecisionAction where
  | prioritize
  | maintain
  | downgrade
  | defer
  | skip
deriving DecidableEq, Repr

/-- Stress levels (StressLevel enum in src/models/health_state.py). -/
inductive StressLevel where
  | low
  | medium
  | high
deriving DecidableEq, Repr

/-- The string value of a stress level (the enum member values). -/
def StressLevel.val : StressLevel → String
  | .low => "low"
  | .medium => "medium"
  | .high => "high"

/-- A planned task (PlannedTask in src/models/decision.py). -/
structure PlannedTask where
  domain : HealthDomain
  name : String
  durationMinutes : ℤ
  intensity : ℚ
  description : String
deriving DecidableEq, Repr

/-- An active constraint (Constraint in src/models/health_state.py);
its presentation-only `description` and `source` fields are omitted. -/
structure Constraint where
  name : String
  severity : ℚ
deriving DecidableEq, Repr

/-- ActiveConstraints is a plain list of constraints
(src/models/health_state.py keeps them in a Python list). -/
abbrev ActiveConstraints := List Constraint

/-- `ActiveConstraints.has`: some constraint in the collection has this name. -/
def hasC (cs : ActiveConstraints) (n : String) : Prop :=
  ∃ c ∈ cs, c.name = n

instance (cs : ActiveConstraints) (n : String) : Decidable (hasC cs n) := by
  unfold hasC; infer_instance

/-- A health-state snapshot (HealthState in src/models/health_state.py);
only the fields the embedded agents read are kept. -/
structure HealthState where
  sleepHours : ℚ
  sleepQuality : ℚ
  energyLevel : ℤ
  stressLevel : StressLevel
  timeAvailableHours : ℚ
  missedWorkouts7d : ℤ
  consecutiveHighEffortDays : ℤ
  sleepDebtHours : ℚ
deriving DecidableEq, Repr

/-- The dictionary produced by `HealthState.to_dict`, restricted to the keys
the burnout predictor looks up.  Each field is an `Option` because the
predictor guards every access with a `key in dict` test. -/
structure StateSnapshot where
  sleepHours : Option ℚ
  stressLevel : Option String
  energyLevel : Option ℚ
deriving DecidableEq, Repr

/-- `HealthState.to_dict` restricted to the snapshot keys above: every key is
present and `stress_level` is stored as the enum's string value. -/
def HealthState.toSnapshot (s : HealthState) : StateSnapshot :=
  { sleepHours := some s.sleepHours
    stressLevel := some s.stressLevel.val
    energyLevel := some (s.energyLevel : ℚ) }

/-- A per-domain decision (DomainDecision in src/models/decision.py). -/
structure DomainDecision where
  domain : HealthDomain
  action : DecisionAction
  originalTask : Option PlannedTask
  adjustedTask : Option PlannedTask
  reasoning : String
  priorityScore : ℚ
deriving DecidableEq, Repr

/-- A future-impact note (FutureImpact in src/models/decision.py);
its free-text `description` field is omitted. -/
structure FutureImpact where
  daysAffected : ℤ
  adjustmentType : String
deriving DecidableEq, Repr

/-- A complete trade-off decision (TradeOffDecision in
src/models/decision.py); the random `decision_id` and the
presentation-only `priority_adjustments` trace are omitted. -/
structure TradeOffDecision where
  timestamp : ℚ
  stateSnapshot : StateSnapshot
  constraintsActive : List String
  decisions : List DomainDecision
  futureImpacts : List FutureImpact
  confidenceScore : ℚ
  reasoningSummary : String
deriving DecidableEq, Repr

/-- The four per-domain user preference priorities
(DomainPreferences in src/models/user_profile.py). -/
structure DomainPreferences where
  fitnessPriority : ℚ
  nutritionPriority : ℚ
  recoveryPriority : ℚ
  mindfulnessPriority : ℚ
deriving DecidableEq, Repr

/-! ## Priority matrix (PriorityMatrix in src/agents/tradeoff_engine.py) -/

/-- `PriorityMatrix.BASE_PRIORITIES`. -/
def basePriorities : HealthDomain → ℚ
  | .recovery => 30/100
  | .nutrition => 25/100
  | .fitness => 25/100
  | .mindfulness => 20/100

/-- The iteration order of the base-priority dictionary (its insertion
order); applying modifiers and preferences never adds keys, so this is
also the iteration order of `priorities.items()` in `decide`. -/
def allDomains : List HealthDomain :=
  [.recovery, .nutrition, .fitness, .mindfulness]

/-- `PriorityMatrix.CONSTRAINT_MODIFIERS`: `none` for a constraint name with
no table entry; for a listed constraint, a total per-domain delta function
(domains absent from the Python sub-dictionary carry a zero delta, which
is equivalent to not updating them). -/
def constraintModifiers (n : String) : Option (HealthDomain → ℚ) :=
  if n = "critical_sleep" then some fun d =>
    match d with
    | .recovery => 25/100 | .fitness => -(20/100) | .mindfulness => 5/100 | _ => 0
  else if n = "low_sleep" then some fun d =>
    match d with
    | .recovery => 15/100 | .fitness => -(10/100) | _ => 0
  else if n = "high_stress" then some fun d =>
    match d with
    | .mindfulness => 20/100 | .fitness => -(10/100) | .recovery => 10/100 | _ => 0
  else if n = "low_energy" then some fun d =>
    match d with
    | .recovery => 10/100 | .fitness => -(15/100) | _ => 0
  else if n = "critical_energy" then some fun d =>
    match d with
    | .recovery => 20/100 | .fitness => -(25/100) | .mindfulness => 10/100 | _ => 0
  else if n = "overtraining_risk" then some fun d =>
    match d with
    | .recovery => 20/100 | .fitness => -(20/100) | _ => 0
  else if n = "burnout_warning" then some fun d =>
    match d with
    | .recovery => 25/100 | .fitness => -(25/100) | .mindfulness => 15/100
    | .nutrition => -(10/100)
  else if n = "time_limited" then some fun d =>
    match d with
    | .fitness => 5/100 | _ => 0
  else if n = "time_critical" then some fun d =>
    match d with
    | .nutrition => 10/100 | .fitness => -(15/100) | _ => 0
  else none

/-- The modifier loop of `calculate_adjusted_priorities`: each active
constraint with a table entry adds its per-domain delta scaled by the
constraint's severity. -/
def applyModifiers (cs : ActiveConstraints) (p : HealthDomain → ℚ) :
    HealthDomain → ℚ :=
  cs.foldl (fun p c =>
    match constraintModifiers c.name with
    | none => p
    | some m => fun d => p d + m d * c.severity) p

/-- The user-preference blend of `calculate_adjusted_priorities` (70%
calculated / 30% user); the outer `Option` models passing
`user_preferences=None`, the inner one a key absent from the map. -/
def blendPrefs (prefs : Option (HealthDomain → Option ℚ))
    (p : HealthDomain → ℚ) : HealthDomain → ℚ :=
  match prefs with
  | none => p
  | some up => fun d =>
    match up d with
    | none => p d
    | some u => p d * (7/10) + u * (3/10)

/-- Priorities after modifiers and preference blending, before clamping. -/
def rawPriorities (cs : ActiveConstraints)
    (prefs : Option (HealthDomain → Option ℚ)) : HealthDomain → ℚ :=
  blendPrefs prefs (applyModifiers cs basePriorities)

/-- `{k: max(0.05, v) for k, v in priorities.items()}`. -/
def clampedPriorities (cs : ActiveConstraints)
    (prefs : Option (HealthDomain → Option ℚ)) : HealthDomain → ℚ :=
  fun d => max (5/100) (rawPriorities cs prefs d)

/-- `total = sum(priorities.values())` over the four domains. -/
def clampedTotal (cs : ActiveConstraints)
    (prefs : Option (HealthDomain → Option ℚ)) : ℚ :=
  (allDomains.map (clampedPriorities cs prefs)).sum

/-- `PriorityMatrix.calculate_adjusted_priorities`: clamp every domain to
the 0.05 floor, then divide by the post-clamp total. -/
def calculateAdjustedPriorities (cs : ActiveConstraints)
    (prefs : Option (HealthDomain → Option ℚ)) : HealthDomain → ℚ :=
  fun d => clampedPriorities cs prefs d / clampedTotal cs prefs

lemma floor_le_clamped (cs : ActiveConstraints)
    (prefs : Option (HealthDomain → Option ℚ)) (d : HealthDomain) :
    (5/100 : ℚ) ≤ clampedPriorities cs prefs d :=
  le_max_left _ _

lemma clampedTotal_pos (cs : ActiveConstraints)
    (prefs : Option (HealthDomain → Option ℚ)) :
    0 < clampedTotal cs prefs := by
  have h : ∀ d, (5/100 : ℚ) ≤ clampedPriorities cs prefs d :=
    floor_le_clamped cs prefs
  have := h .recovery
  have := h .nutrition
  have := h .fitness
  have := h .mindfulness
  unfold clampedTotal allDomains
  simp only [List.map_cons, List.map_nil, List.sum_cons, List.sum_nil]
  linarith

/-- C1 counterexample input: the constraints the evaluator itself produces
for a state with under-5h sleep and HIGH stress. -/
def c1Constraints : ActiveConstraints :=
  [⟨"critical_sleep", 9/10⟩, ⟨"high_stress", 7/10⟩]

/-- C1: the claim "the four adjusted priorities are each ≥ 0.05" is false:
with critical_sleep (severity 0.9) and high_stress (severity 0.7) active
and no user preferences, the clamped total is 1.28 and the normalized
fitness priority is 0.05/1.28 = 0.0390625 < 0.05. -/
theorem c1_floor_violated :
    calculateAdjustedPriorities c1Constraints none .fitness < 5/100 := by
  simp only [calculateAdjustedPriorities, clampedPriorities, clampedTotal,
    rawPriorities, blendPrefs, applyModifiers, basePriorities,
    constraintModifiers, allDomains, c1Constraints, List.foldl_cons,
    List.foldl_nil, List.map_cons, List.map_nil, List.sum_cons,
    List.sum_nil, String.reduceEq, reduceIte]
  norm_num [max_def]

/-- C1 (amended): the four adjusted priorities sum to exactly 1 and are
each strictly positive, and the 0.05 floor holds for the clamped values
before the final renormalization (after renormalization a priority can
drop below 0.05 whenever the clamped total exceeds 1). -/
theorem c1_priorities_normalized (cs : ActiveConstraints)
    (prefs : Option (HealthDomain → Option ℚ)) :
    (allDomains.map (calculateAdjustedPriorities cs prefs)).sum = 1 ∧
    (∀ d, 0 < calculateAdjustedPriorities cs prefs d) ∧
    (∀ d, (5/100 : ℚ) ≤ clampedPriorities cs prefs d) := by
  have hpos := clampedTotal_pos cs prefs
  refine ⟨?_, ?_, floor_le_clamped cs prefs⟩
  · unfold calculateAdjustedPriorities
    have hexp : (allDomains.map fun d =>
        clampedPriorities cs prefs d / clampedTotal cs prefs).sum =
        clampedTotal cs prefs / clampedTotal cs prefs := by
      unfold clampedTotal allDomains
      simp only [List.map_cons, List.map_nil, List.sum_cons, List.sum_nil]
      field_simp
    rw [hexp, div_self (ne_of_gt hpos)]
  · intro d
    exact div_pos (lt_of_lt_of_le (by norm_num) (floor_le_clamped cs prefs d)) hpos

/-! ## Constraint evaluator (src/agents/constraint_evaluator.py) -/

/-- Configurable thresholds (ConstraintThresholds dataclass). -/
structure ConstraintThresholds where
  minSleepHours : ℚ
  criticalSleepHours : ℚ
  lowEnergyThreshold : ℤ
  criticalEnergyThreshold : ℤ
  minTimeHours : ℚ
  limitedTimeHours : ℚ
  maxConsecutiveHighEffort : ℤ
  sleepDebtWarningHours : ℚ
  sleepDebtCriticalHours : ℚ
deriving DecidableEq, Repr

/-- The dataclass's default threshold values. -/
def defaultThresholds : ConstraintThresholds :=
  { minSleepHours := 6
    criticalSleepHours := 5
    lowEnergyThreshold := 4
    criticalEnergyThreshold := 2
    minTimeHours := 1/2
    limitedTimeHours := 3/2
    maxConsecutiveHighEffort := 3
    sleepDebtWarningHours := 3
    sleepDebtCriticalHours := 6 }

/-- `ConstraintEvaluator._evaluate_sleep`: the constraints this step appends. -/
def evalSleep (th : ConstraintThresholds) (s : HealthState) : List Constraint :=
  (if s.sleepHours < th.criticalSleepHours then
    [⟨"critical_sleep", 9/10⟩]
  else if s.sleepHours < th.minSleepHours then
    [⟨"low_sleep", min (7/10) (1 - s.sleepHours / th.minSleepHours)⟩]
  else []) ++
  (if th.sleepDebtCriticalHours ≤ s.sleepDebtHours then
    [⟨"sleep_debt_accumulated", 8/10⟩]
  else if th.sleepDebtWarningHours ≤ s.sleepDebtHours then
    [⟨"sleep_debt_accumulated", 5/10⟩]
  else [])

/-- `ConstraintEvaluator._evaluate_energy`. -/
def evalEnergy (th : ConstraintThresholds) (s : HealthState) : List Constraint :=
  if s.energyLevel ≤ th.criticalEnergyThreshold then
    [⟨"critical_energy", 9/10⟩]
  else if s.energyLevel ≤ th.lowEnergyThreshold then
    [⟨"low_energy", min (7/10) (1 - (s.energyLevel : ℚ) / ((th.lowEnergyThreshold : ℚ) + 2))⟩]
  else []

/-- `ConstraintEvaluator._evaluate_stress`. -/
def evalStress (s : HealthState) : List Constraint :=
  if s.stressLevel = .high then [⟨"high_stress", 7/10⟩] else []

/-- `ConstraintEvaluator._evaluate_time`. -/
def evalTime (th : ConstraintThresholds) (s : HealthState) : List Constraint :=
  if s.timeAvailableHours < th.minTimeHours then
    [⟨"time_critical", 9/10⟩]
  else if s.timeAvailableHours < th.limitedTimeHours then
    [⟨"time_limited", min (7/10) (1 - s.timeAvailableHours / th.limitedTimeHours)⟩]
  else []

/-- `ConstraintEvaluator._evaluate_effort`. -/
def evalEffort (th : ConstraintThresholds) (s : HealthState) : List Constraint :=
  if th.maxConsecutiveHighEffort ≤ s.consecutiveHighEffortDays then
    [⟨"overtraining_risk", 6/10⟩]
  else []

/-- The burnout risk-factor count of `ConstraintEvaluator._evaluate_compound`. -/
def riskFactors (cs : List Constraint) : ℕ :=
  (if hasC cs "low_sleep" ∨ hasC cs "critical_sleep" then 1 else 0) +
  (if hasC cs "low_energy" ∨ hasC cs "critical_energy" then 1 else 0) +
  (if hasC cs "high_stress" then 1 else 0) +
  (if hasC cs "overtraining_risk" then 1 else 0)

/-- `ConstraintEvaluator._evaluate_compound`: the constraints it appends to
the set accumulated by the five earlier steps. -/
def evalCompound (cs : List Constraint) : List Constraint :=
  if 3 ≤ riskFactors cs then [⟨"burnout_warning", 85/100⟩] else []

/-- The five non-compound evaluation steps, in the order
`ConstraintEvaluator.evaluate` runs them. -/
def evalBase (th : ConstraintThresholds) (s : HealthState) : List Constraint :=
  evalSleep th s ++ evalEnergy th s ++ evalStress s ++ evalTime th s ++
    evalEffort th s

/-- `ConstraintEvaluator.evaluate`: the five independent steps followed by
the compound step, which reads the constraints accumulated so far. -/
def evaluate (th : ConstraintThresholds) (s : HealthState) : List Constraint :=
  evalBase th s ++ evalCompound (evalBase th s)

lemma hasC_append (a b : List Constraint) (n : String) :
    hasC (a ++ b) n ↔ hasC a n ∨ hasC b n := by
  simp [hasC, List.mem_append, or_and_right, exists_or]

lemma name_mem_evalSleep (th : ConstraintThresholds) (s : HealthState) :
    ∀ c ∈ evalSleep th s,
      c.name ∈ ["critical_sleep", "low_sleep", "sleep_debt_accumulated"] := by
  intro c hc
  unfold evalSleep at hc
  rcases List.mem_append.1 hc with h | h <;>
    (split at h <;> simp_all)

lemma name_mem_evalEnergy (th : ConstraintThresholds) (s : HealthState) :
    ∀ c ∈ evalEnergy th s, c.name ∈ ["critical_energy", "low_energy"] := by
  intro c hc
  unfold evalEnergy at hc
  split at hc <;> simp_all

lemma name_mem_evalStress (s : HealthState) :
    ∀ c ∈ evalStress s, c.name ∈ ["high_stress"] := by
  intro c hc
  unfold evalStress at hc
  split at hc <;> simp_all

lemma name_mem_evalTime (th : ConstraintThresholds) (s : HealthState) :
    ∀ c ∈ evalTime th s, c.name ∈ ["time_critical", "time_limited"] := by
  intro c hc
  unfold evalTime at hc
  split at hc <;> simp_all

lemma name_mem_evalEffort (th : ConstraintThresholds) (s : HealthState) :
    ∀ c ∈ evalEffort th s, c.name ∈ ["overtraining_risk"] := by
  intro c hc
  unfold evalEffort at hc
  split at hc <;> simp_all

lemma name_mem_evalBase (th : ConstraintThresholds) (s : HealthState) :
    ∀ c ∈ evalBase th s,
      c.name ∈ ["critical_sleep", "low_sleep", "sleep_debt_accumulated",
        "critical_energy", "low_energy", "high_stress", "time_critical",
        "time_limited", "overtraining_risk"] := by
  intro c hc
  unfold evalBase at hc
  simp only [List.mem_append] at hc
  rcases hc with (((h | h) | h) | h) | h
  · have := name_mem_evalSleep th s c h; simp only [List.mem_cons,
      List.not_mem_nil, or_false] at this ⊢; tauto
  · have := name_mem_evalEnergy th s c h; simp only [List.mem_cons,
      List.not_mem_nil, or_false] at this ⊢; tauto
  · have := name_mem_evalStress s c h; simp only [List.mem_cons,
      List.not_mem_nil, or_false] at this ⊢; tauto
  · have := name_mem_evalTime th s c h; simp only [List.mem_cons,
      List.not_mem_nil, or_false] at this ⊢; tauto
  · have := name_mem_evalEffort th s c h; simp only [List.mem_cons,
      List.not_mem_nil, or_false] at this ⊢; tauto

lemma not_hasC_base_burnout (th : ConstraintThresholds) (s : HealthState) :
    ¬ hasC (evalBase th s) "burnout_warning" := by
  rintro ⟨c, hc, hn⟩
  have := name_mem_evalBase th s c hc
  rw [hn] at this
  simp at this

lemma evalCompound_names (cs : List Constraint) :
    ∀ c ∈ evalCompound cs, c = ⟨"burnout_warning", 85/100⟩ := by
  intro c hc
  unfold evalCompound at hc
  split at hc <;> simp_all

lemma hasC_evaluate_of_ne (th : ConstraintThresholds) (s : HealthState)
    (n : String) (hn : n ≠ "burnout_warning") :
    hasC (evaluate th s) n ↔ hasC (evalBase th s) n := by
  unfold evaluate
  rw [hasC_append]
  constructor
  · rintro (h | ⟨c, hc, hcn⟩)
    · exact h
    · have := evalCompound_names _ c hc
      rw [this] at hcn
      exact absurd hcn.symm hn
  · exact Or.inl

lemma riskFactors_evaluate (th : ConstraintThresholds) (s : HealthState) :
    riskFactors (evaluate th s) = riskFactors (evalBase th s) := by
  unfold riskFactors
  simp only [hasC_evaluate_of_ne, ne_eq, String.reduceEq,
    not_false_eq_true]

/-- C2: for every threshold configuration and every health state, the
evaluated constraint set contains "burnout_warning" iff at least 3 of the
four factor groups (sleep constraint, energy constraint, high_stress,
overtraining_risk) are present in that same result, and every
"burnout_warning" constraint in the result carries severity 0.85. -/
theorem c2_burnout_warning_iff (th : ConstraintThresholds) (s : HealthState) :
    (hasC (evaluate th s) "burnout_warning" ↔
      3 ≤ riskFactors (evaluate th s)) ∧
    ∀ c ∈ evaluate th s, c.name = "burnout_warning" → c.severity = 85/100 := by
  constructor
  · rw [riskFactors_evaluate]
    unfold evaluate
    rw [hasC_append]
    constructor
    · rintro (h | h)
      · exact absurd h (not_hasC_base_burnout th s)
      · unfold evalCompound at h
        by_contra hlt
        rw [if_neg hlt] at h
        simp [hasC] at h
    · intro h
      refine Or.inr ?_
      unfold evalCompound
      rw [if_pos h]
      exact ⟨_, List.mem_singleton_self _, rfl⟩
  · intro c hc _
    unfold evaluate at hc
    rcases List.mem_append.1 hc with h | h
    · have := name_mem_evalBase th s c h
      simp_all
    · rw [evalCompound_names _ c h]

/-- The health state of spec.md's Scenario A: 4h sleep, energy 2, HIGH
stress, 1h available, 4 consecutive high-effort days. -/
def scenarioA : HealthState :=
  { sleepHours := 4
    sleepQuality := 50
    energyLevel := 2
    stressLevel := .high
    timeAvailableHours := 1
    missedWorkouts7d := 0
    consecutiveHighEffortDays := 4
    sleepDebtHours := 0 }

/-- Witness for C2: under the default thresholds, Scenario A produces the
burnout warning, and the theorem forces its severity to be 0.85. -/
theorem c2_burnout_warning_witness :
    (⟨"burnout_warning", 85/100⟩ : Constraint) ∈ evaluate defaultThresholds scenarioA ∧
    (⟨"burnout_warning", 85/100⟩ : Constraint).severity = 85/100 := by
  have hmem : (⟨"burnout_warning", 85/100⟩ : Constraint) ∈
      evaluate defaultThresholds scenarioA := by
    simp only [evaluate, evalBase, evalSleep, evalEnergy, evalStress,
      evalTime, evalEffort, evalCompound, riskFactors, hasC, defaultThresholds,
      scenarioA]
    norm_num
  exact ⟨hmem, (c2_burnout_warning_iff defaultThresholds scenarioA).2 _ hmem rfl⟩

/-- The list of constraint names, as produced by `ActiveConstraints.to_list`. -/
def namesOf (cs : List Constraint) : List String :=
  cs.map Constraint.name

lemma not_mem_names {l : List Constraint} {s₁ : List String}
    (h₁ : ∀ c ∈ l, c.name ∈ s₁) {a : String} (ha : a ∉ s₁) :
    a ∉ namesOf l := by
  intro h
  obtain ⟨c, hc, rfl⟩ := List.mem_map.1 h
  exact ha (h₁ c hc)

lemma disjoint_names {l₁ l₂ : List Constraint} {s₁ s₂ : List String}
    (h₁ : ∀ c ∈ l₁, c.name ∈ s₁) (h₂ : ∀ c ∈ l₂, c.name ∈ s₂)
    (h : ∀ a ∈ s₁, a ∉ s₂) :
    (namesOf l₁).Disjoint (namesOf l₂) := by
  intro a ha hb
  obtain ⟨c, hc, rfl⟩ := List.mem_map.1 ha
  obtain ⟨c', hc', he⟩ := List.mem_map.1 hb
  exact h _ (h₁ c hc) (he ▸ h₂ c' hc')

lemma name_mem_evalCompound (cs : List Constraint) :
    ∀ c ∈ evalCompound cs, c.name ∈ ["burnout_warning"] := by
  intro c hc
  rw [evalCompound_names cs c hc]
  simp

lemma nodup_names_evalSleep (th : ConstraintThresholds) (s : HealthState) :
    (namesOf (evalSleep th s)).Nodup := by
  unfold namesOf evalSleep
  repeat' split
  all_goals simp

lemma nodup_names_evalEnergy (th : ConstraintThresholds) (s : HealthState) :
    (namesOf (evalEnergy th s)).Nodup := by
  unfold namesOf evalEnergy
  repeat' split
  all_goals simp

lemma nodup_names_evalStress (s : HealthState) :
    (namesOf (evalStress s)).Nodup := by
  unfold namesOf evalStress
  repeat' split
  all_goals simp

lemma nodup_names_evalTime (th : ConstraintThresholds) (s : HealthState) :
    (namesOf (evalTime th s)).Nodup := by
  unfold namesOf evalTime
  repeat' split
  all_goals simp

lemma nodup_names_evalEffort (th : ConstraintThresholds) (s : HealthState) :
    (namesOf (evalEffort th s)).Nodup := by
  unfold namesOf evalEffort
  repeat' split
  all_goals simp

lemma nodup_names_evalCompound (cs : List Constraint) :
    (namesOf (evalCompound cs)).Nodup := by
  unfold namesOf evalCompound
  repeat' split
  all_goals simp

lemma name_mem_append {l₁ l₂ : List Constraint} {s₁ s₂ : List String}
    (h₁ : ∀ c ∈ l₁, c.name ∈ s₁) (h₂ : ∀ c ∈ l₂, c.name ∈ s₂) :
    ∀ c ∈ l₁ ++ l₂, c.name ∈ s₁ ++ s₂ := by
  intro c hc
  rcases List.mem_append.1 hc with h | h
  · exact List.mem_append.2 (Or.inl (h₁ c h))
  · exact List.mem_append.2 (Or.inr (h₂ c h))

lemma namesOf_append (l₁ l₂ : List Constraint) :
    namesOf (l₁ ++ l₂) = namesOf l₁ ++ namesOf l₂ :=
  List.map_append _ _ _

lemma nodup_names_evaluate (th : ConstraintThresholds) (s : HealthState) :
    (namesOf (evaluate th s)).Nodup := by
  have h2 : (namesOf (evalSleep th s ++ evalEnergy th s)).Nodup := by
    rw [namesOf_append]
    exact (nodup_names_evalSleep th s).append (nodup_names_evalEnergy th s)
      (disjoint_names (name_mem_evalSleep th s) (name_mem_evalEnergy th s)
        (by decide))
  have m2 := name_mem_append (name_mem_evalSleep th s)
    (name_mem_evalEnergy th s)
  have h3 : (namesOf (evalSleep th s ++ evalEnergy th s ++ evalStress s)).Nodup := by
    rw [namesOf_append]
    exact h2.append (nodup_names_evalStress s)
      (disjoint_names m2 (name_mem_evalStress s) (by decide))
  have m3 := name_mem_append m2 (name_mem_evalStress s)
  have h4 : (namesOf (evalSleep th s ++ evalEnergy th s ++ evalStress s ++
      evalTime th s)).Nodup := by
    rw [namesOf_append]
    exact h3.append (nodup_names_evalTime th s)
      (disjoint_names m3 (name_mem_evalTime th s) (by decide))
  have m4 := name_mem_append m3 (name_mem_evalTime th s)
  have hBase : (namesOf (evalBase th s)).Nodup := by
    unfold evalBase
    rw [namesOf_append]
    exact h4.append (nodup_names_evalEffort th s)
      (disjoint_names m4 (name_mem_evalEffort th s) (by decide))
  unfold evaluate
  rw [namesOf_append]
  exact hBase.append (nodup_names_evalCompound _)
    (disjoint_names (name_mem_evalBase th s)
      (name_mem_evalCompound _) (by decide))

lemma count_names_zero {l : List Constraint} {s₁ : List String}
    (h₁ : ∀ c ∈ l, c.name ∈ s₁) {a : String} (ha : a ∉ s₁) :
    (namesOf l).count a = 0 :=
  List.count_eq_zero_of_not_mem (not_mem_names h₁ ha)

lemma count_pair_evalSleep (th : ConstraintThresholds) (s : HealthState) :
    (namesOf (evalSleep th s)).count "low_sleep" +
      (namesOf (evalSleep th s)).count "critical_sleep" ≤ 1 := by
  unfold namesOf evalSleep
  repeat' split
  all_goals simp [List.count_cons]

lemma count_pair_evalEnergy (th : ConstraintThresholds) (s : HealthState) :
    (namesOf (evalEnergy th s)).count "low_energy" +
      (namesOf (evalEnergy th s)).count "critical_energy" ≤ 1 := by
  unfold namesOf evalEnergy
  repeat' split
  all_goals simp [List.count_cons]

lemma count_pair_evalTime (th : ConstraintThresholds) (s : HealthState) :
    (namesOf (evalTime th s)).count "time_limited" +
      (namesOf (evalTime th s)).count "time_critical" ≤ 1 := by
  unfold namesOf evalTime
  repeat' split
  all_goals simp [List.count_cons]

/-- C10: a single evaluation never repeats a constraint name, and each of
the pairs low_sleep/critical_sleep, low_energy/critical_energy and
time_limited/time_critical is mutually exclusive (the two names together
occur at most once in the result). -/
theorem c10_constraints_unique (th : ConstraintThresholds) (s : HealthState) :
    (namesOf (evaluate th s)).Nodup ∧
    (namesOf (evaluate th s)).count "low_sleep" +
      (namesOf (evaluate th s)).count "critical_sleep" ≤ 1 ∧
    (namesOf (evaluate th s)).count "low_energy" +
      (namesOf (evaluate th s)).count "critical_energy" ≤ 1 ∧
    (namesOf (evaluate th s)).count "time_limited" +
      (namesOf (evaluate th s)).count "time_critical" ≤ 1 := by
  have hsplit : namesOf (evaluate th s) =
      namesOf (evalSleep th s) ++ (namesOf (evalEnergy th s) ++
        (namesOf (evalStress s) ++ (namesOf (evalTime th s) ++
          (namesOf (evalEffort th s) ++
            namesOf (evalCompound (evalBase th s)))))) := by
    unfold evaluate evalBase
    simp [namesOf_append, List.append_assoc]
  refine ⟨nodup_names_evaluate th s, ?_, ?_, ?_⟩ <;>
    rw [hsplit] <;> simp only [List.count_append]
  · have h1 := count_pair_evalSleep th s
    have z1 := count_names_zero (name_mem_evalEnergy th s)
      (a := "low_sleep") (by decide)
    have z2 := count_names_zero (name_mem_evalEnergy th s)
      (a := "critical_sleep") (by decide)
    have z3 := count_names_zero (name_mem_evalStress s)
      (a := "low_sleep") (by decide)
    have z4 := count_names_zero (name_mem_evalStress s)
      (a := "critical_sleep") (by decide)
    have z5 := count_names_zero (name_mem_evalTime th s)
      (a := "low_sleep") (by decide)
    have z6 := count_names_zero (name_mem_evalTime th s)
      (a := "critical_sleep") (by decide)
    have z7 := count_names_zero (name_mem_evalEffort th s)
      (a := "low_sleep") (by decide)
    have z8 := count_names_zero (name_mem_evalEffort th s)
      (a := "critical_sleep") (by decide)
    have z9 := count_names_zero (name_mem_evalCompound (evalBase th s))
      (a := "low_sleep") (by decide)
    have z10 := count_names_zero (name_mem_evalCompound (evalBase th s))
      (a := "critical_sleep") (by decide)
    omega
  · have h1 := count_pair_evalEnergy th s
    have z1 := count_names_zero (name_mem_evalSleep th s)
      (a := "low_energy") (by decide)
    have z2 := count_names_zero (name_mem_evalSleep th s)
      (a := "critical_energy") (by decide)
    have z3 := count_names_zero (name_mem_evalStress s)
      (a := "low_energy") (by decide)
    have z4 := count_names_zero (name_mem_evalStress s)
      (a := "critical_energy") (by decide)
    have z5 := count_names_zero (name_mem_evalTime th s)
      (a := "low_energy") (by decide)
    have z6 := count_names_zero (name_mem_evalTime th s)
      (a := "critical_energy") (by decide)
    have z7 := count_names_zero (name_mem_evalEffort th s)
      (a := "low_energy") (by decide)
    have z8 := count_names_zero (name_mem_evalEffort th s)
      (a := "critical_energy") (by decide)
    have z9 := count_names_zero (name_mem_evalCompound (evalBase th s))
      (a := "low_energy") (by decide)
    have z10 := count_names_zero (name_mem_evalCompound (evalBase th s))
      (a := "critical_energy") (by decide)
    omega
  · have h1 := count_pair_evalTime th s
    have z1 := count_names_zero (name_mem_evalSleep th s)
      (a := "time_limited") (by decide)
    have z2 := count_names_zero (name_mem_evalSleep th s)
      (a := "time_critical") (by decide)
    have z3 := count_names_zero (name_mem_evalEnergy th s)
      (a := "time_limited") (by decide)
    have z4 := count_names_zero (name_mem_evalEnergy th s)
      (a := "time_critical") (by decide)
    have z5 := count_names_zero (name_mem_evalStress s)
      (a := "time_limited") (by decide)
    have z6 := count_names_zero (name_mem_evalStress s)
      (a := "time_critical") (by decide)
    have z7 := count_names_zero (name_mem_evalEffort th s)
      (a := "time_limited") (by decide)
    have z8 := count_names_zero (name_mem_evalEffort th s)
      (a := "time_critical") (by decide)
    have z9 := count_names_zero (name_mem_evalCompound (evalBase th s))
      (a := "time_limited") (by decide)
    have z10 := count_names_zero (name_mem_evalCompound (evalBase th s))
      (a := "time_critical") (by decide)
    omega

/-! ## Trade-off engine (TradeOffEngine in src/agents/tradeoff_engine.py) -/

/-- The per-domain minimal durations of `_create_minimal_version`
(the Python dictionary covers all four domains, so its `.get` default of
10 is unreachable). -/
def minimalDuration : HealthDomain → ℤ
  | .fitness => 10
  | .nutrition => 5
  | .recovery => 10
  | .mindfulness => 5

/-- `TradeOffEngine._create_minimal_version`. -/
def createMinimalVersion (t : PlannedTask) : PlannedTask :=
  { domain := t.domain
    name := "Minimal " ++ t.name
    durationMinutes := minimalDuration t.domain
    intensity := 2/10
    description := "Abbreviated version of: " ++ t.description }

/-- A (action, adjusted task, reasoning) triple as returned by the four
category-specific deciders. -/
abbrev DecisionTriple := DecisionAction × Option PlannedTask × String

/-- `TradeOffEngine._decide_fitness`. -/
def decideFitness (task : PlannedTask) (cs : ActiveConstraints)
    (s : HealthState) (priority : ℚ) : DecisionTriple :=
  if hasC cs "burnout_warning" then
    (.skip, none,
      "Burnout risk detected - skipping workout to prioritize recovery")
  else if hasC cs "critical_sleep" ∨ hasC cs "critical_energy" then
    (.downgrade,
      some ⟨.fitness, "Light stretching", 10, 2/10, "Gentle movement only"⟩,
      "Critical fatigue - replacing with light stretching to maintain movement habit")
  else if hasC cs "high_stress" ∧ hasC cs "low_sleep" then
    (.downgrade,
      some ⟨.fitness, "Recovery walk", 20, 3/10, "Low-intensity outdoor walk"⟩,
      "High stress + poor sleep - replacing HIIT with recovery walk")
  else if hasC cs "overtraining_risk" then
    (.downgrade,
      some ⟨.fitness, "Mobility work", 15, 25/100, "Active recovery mobility"⟩,
      "Overtraining risk - substituting with mobility work for active recovery")
  else if hasC cs "low_energy" then
    (.downgrade,
      some ⟨.fitness, task.name ++ " (reduced intensity)", task.durationMinutes,
        task.intensity * (6/10), "Lower intensity version: " ++ task.description⟩,
      "Low energy - reducing workout intensity by 40%")
  else
    (.maintain, none, "Conditions favorable for planned workout")

/-- `TradeOffEngine._decide_recovery`. -/
def decideRecovery (task : PlannedTask) (cs : ActiveConstraints)
    (s : HealthState) (priority : ℚ) : DecisionTriple :=
  if hasC cs "critical_sleep" ∨ hasC cs "burnout_warning" ∨
      hasC cs "overtraining_risk" then
    (.prioritize, none, "Recovery critical due to active fatigue/burnout signals")
  else if hasC cs "time_critical" then
    (.downgrade,
      some ⟨.recovery, "Power nap", 20, 1/10, "Quick restorative rest"⟩,
      "Time critical - condensed recovery with power nap")
  else
    (.maintain, none, "Recovery as planned")

/-- `TradeOffEngine._decide_mindfulness`. -/
def decideMindfulness (task : PlannedTask) (cs : ActiveConstraints)
    (s : HealthState) (priority : ℚ) : DecisionTriple :=
  if hasC cs "high_stress" then
    (.prioritize, none,
      "High stress detected - prioritizing mindfulness for stress reduction")
  else if hasC cs "time_critical" then
    (.downgrade,
      some ⟨.mindfulness, "Breathing exercise", 5, 2/10, "Quick box breathing"⟩,
      "Time critical - condensed to 5-minute breathing exercise")
  else if s.energyLevel ≤ 3 then
    (.prioritize, none,
      "Low energy state - meditation supports recovery without physical demand")
  else
    (.maintain, none, "Mindfulness as planned")

/-- `TradeOffEngine._decide_nutrition`.  Note the low-energy branch returns
MAINTAIN together with a non-null adjusted task. -/
def decideNutrition (task : PlannedTask) (cs : ActiveConstraints)
    (s : HealthState) (priority : ℚ) : DecisionTriple :=
  if hasC cs "time_critical" then
    (.downgrade,
      some ⟨.nutrition, "Simple healthy meal", 10, 1/10,
        "Pre-prepared or quick healthy option"⟩,
      "Time critical - simplify to pre-prepared healthy option rather than cooking")
  else if hasC cs "low_energy" then
    (.maintain,
      some ⟨.nutrition, "Energy-supportive meal", task.durationMinutes,
        task.intensity, "Focus on complex carbs and lean protein for energy"⟩,
      "Low energy - adjusting meal focus to energy-supportive nutrients")
  else
    (.maintain, none, "Nutrition plan as scheduled")

/-- The triple computed by the if/elif chain of `_decide_task` before the
high-priority boost: the time-starvation override, then the
category-specific rule for the task's domain. -/
def decideTaskTriple (task : PlannedTask) (priority : ℚ)
    (cs : ActiveConstraints) (timeRemaining : ℚ) (s : HealthState) :
    DecisionTriple :=
  if timeRemaining < (task.durationMinutes : ℚ) * (5/10) then
    if (3/10 : ℚ) ≤ priority then
      (.downgrade, some (createMinimalVersion task),
        "Time critically limited but " ++ task.domain.val ++
          " is high priority - minimal version")
    else
      (.skip, none,
        "Insufficient time and " ++ task.domain.val ++
          " not highest priority today")
  else
    match task.domain with
    | .fitness => decideFitness task cs s priority
    | .recovery => decideRecovery task cs s priority
    | .mindfulness => decideMindfulness task cs s priority
    | .nutrition => decideNutrition task cs s priority

/-- The tail of `_decide_task`: the high-priority boost (MAINTAIN with
adjusted priority ≥ 0.35 becomes PRIORITIZE; its reasoning text, which
interpolates the numeric priority in the source, is kept without the
numeral), then the assembled DomainDecision.  The final
`reasoning or default` fallback fires only on an empty reasoning
string. -/
def applyBoost (task : PlannedTask) (priority : ℚ) (r : DecisionTriple) :
    DomainDecision :=
  { domain := task.domain
    action := if (35/100 : ℚ) ≤ priority ∧ r.1 = .maintain then .prioritize
      else r.1
    originalTask := some task
    adjustedTask := r.2.1
    reasoning :=
      let reasoning :=
        if (35/100 : ℚ) ≤ priority ∧ r.1 = .maintain then
          "High adjusted priority - prioritizing " ++ task.domain.val
        else r.2.2
      if reasoning = "" then "Standard execution of " ++ task.name
      else reasoning
    priorityScore := priority }

/-- `TradeOffEngine._decide_task`: the if/elif branch triple followed by
the high-priority boost. -/
def decideTask (task : PlannedTask) (priority : ℚ) (cs : ActiveConstraints)
    (timeRemaining : ℚ) (s : HealthState) : DomainDecision :=
  applyBoost task priority (decideTaskTriple task priority cs timeRemaining s)

/-- Stable descending insertion by priority: an element is placed before
the first list entry whose priority is ≤ its own, so equal priorities keep
their original relative order, exactly like Python's stable
`sorted(..., key=lambda x: -x[1])`. -/
def insertDesc (x : HealthDomain × ℚ) :
    List (HealthDomain × ℚ) → List (HealthDomain × ℚ)
  | [] => [x]
  | y :: ys => if y.2 ≤ x.2 then x :: y :: ys else y :: insertDesc x ys

/-- Stable sort of the priority items in descending priority order. -/
def sortDesc (l : List (HealthDomain × ℚ)) : List (HealthDomain × ℚ) :=
  l.foldr insertDesc []

/-- `effective_capacity = available_time_minutes * energy_factor`. -/
def effectiveCapacity (s : HealthState) : ℚ :=
  s.timeAvailableHours * 60 * ((s.energyLevel : ℚ) / 10)

/-- One iteration of the ranked-domain loop in `TradeOffEngine.decide`:
the accumulator carries (time_allocated, decisions so far). -/
def decideStep (tasks : List PlannedTask) (cs : ActiveConstraints)
    (s : HealthState) (acc : ℚ × List DomainDecision)
    (dp : HealthDomain × ℚ) : ℚ × List DomainDecision :=
  match tasks.filter (fun t => t.domain = dp.1) with
  | [] => acc
  | task :: _ =>
    let dd := decideTask task dp.2 cs (effectiveCapacity s - acc.1) s
    let add : ℚ :=
      if dd.action = .prioritize ∨ dd.action = .maintain then
        (task.durationMinutes : ℚ)
      else if dd.action = .downgrade then
        match dd.adjustedTask with
        | some t => (t.durationMinutes : ℚ)
        | none => 0
      else 0
    (acc.1 + add, acc.2 ++ [dd])

/-- `TradeOffEngine._calculate_future_impacts` (the free-text descriptions
are omitted from the FutureImpact structure). -/
def calculateFutureImpacts (ds : List DomainDecision) (s : HealthState)
    (cs : ActiveConstraints) : List FutureImpact :=
  (match ds.find? (fun d => d.domain = .fitness) with
   | some fd =>
     if fd.action = .skip ∨ fd.action = .downgrade then
       if hasC cs "burnout_warning" ∨ hasC cs "overtraining_risk" then
         [⟨3, "intensity_reduction"⟩]
       else
         [⟨1, "workout_reschedule"⟩]
     else []
   | none => []) ++
  (if 4 < s.sleepDebtHours then [⟨2, "sleep_extension"⟩] else []) ++
  (if hasC cs "burnout_warning" then [⟨7, "deload_week"⟩] else [])

/-- `TradeOffEngine._generate_summary`. -/
def generateSummary (ds : List DomainDecision) (cs : ActiveConstraints) :
    String :=
  let parts : List String :=
    (if cs = [] then []
     else ["Given " ++ toString cs.length ++ " active constraints"]) ++
    (let pr := ds.filter (fun d => d.action = .prioritize)
     if pr = [] then []
     else ["prioritized " ++
       String.intercalate ", " (pr.map (fun d => d.domain.val))]) ++
    (let dw := ds.filter (fun d => d.action = .downgrade)
     if dw = [] then []
     else ["downgraded " ++
       String.intercalate ", " (dw.map (fun d => d.domain.val))]) ++
    (let sk := ds.filter (fun d => d.action = .skip)
     if sk = [] then []
     else ["skipped " ++
       String.intercalate ", " (sk.map (fun d => d.domain.val))])
  if parts = [] then "All tasks maintained as planned."
  else String.intercalate "; " parts ++ "."

/-- `TradeOffEngine._calculate_confidence`. -/
def calculateConfidence (cs : ActiveConstraints) : ℚ :=
  if cs = [] then 95/100
  else
    max (5/10)
      (9/10 - ((cs.map Constraint.severity).sum / (cs.length : ℚ)) * (3/10))

/-- The always-populated preference dictionary `decide` builds from the
user profile before calling the priority matrix. -/
def prefsOfProfile (p : DomainPreferences) : HealthDomain → Option ℚ
  | .fitness => some p.fitnessPriority
  | .nutrition => some p.nutritionPriority
  | .recovery => some p.recoveryPriority
  | .mindfulness => some p.mindfulnessPriority

/-- `TradeOffEngine.decide`: adjusted priorities, ranked domains, the
per-domain decision loop against the effective capacity, future impacts,
summary and confidence.  `now` stands for `datetime.now()`. -/
def engineDecide (now : ℚ) (s : HealthState) (cs : ActiveConstraints)
    (profile : DomainPreferences) (plannedTasks : List PlannedTask) :
    TradeOffDecision :=
  let priorities := calculateAdjustedPriorities cs (some (prefsOfProfile profile))
  let ranked := sortDesc (allDomains.map (fun d => (d, priorities d)))
  let result := ranked.foldl (decideStep plannedTasks cs s) (0, [])
  { timestamp := now
    stateSnapshot := s.toSnapshot
    constraintsActive := namesOf cs
    decisions := result.2
    futureImpacts := calculateFutureImpacts result.2 s cs
    confidenceScore := calculateConfidence cs
    reasoningSummary := generateSummary result.2 cs }

/-- C3: whenever the remaining effective capacity is below 50% of a task's
duration, `_decide_task` overrides every category rule: DOWNGRADE to the
fixed minimal version if the adjusted priority is ≥ 0.3, SKIP otherwise.
`engineDecide` calls `decideTask` with `timeRemaining` equal to
`effectiveCapacity s - time_allocated`. -/
theorem c3_time_starvation (task : PlannedTask) (priority : ℚ)
    (cs : ActiveConstraints) (timeRemaining : ℚ) (s : HealthState)
    (h : timeRemaining < (task.durationMinutes : ℚ) * (5/10)) :
    ((3/10 : ℚ) ≤ priority →
      (decideTask task priority cs timeRemaining s).action = .downgrade ∧
      (decideTask task priority cs timeRemaining s).adjustedTask =
        some (createMinimalVersion task)) ∧
    (priority < (3/10 : ℚ) →
      (decideTask task priority cs timeRemaining s).action = .skip ∧
      (decideTask task priority cs timeRemaining s).adjustedTask = none) := by
  unfold decideTask applyBoost decideTaskTriple
  rw [if_pos h]
  constructor
  · intro hp
    rw [if_pos hp]
    simp
  · intro hp
    rw [if_neg (not_le.2 hp)]
    simp

/-- A fitness task used as a concrete input. -/
def hiitTask : PlannedTask :=
  ⟨.fitness, "HIIT workout", 30, 8/10, "Interval training"⟩

/-- A neutral health state used as a concrete input. -/
def demoState : HealthState :=
  { sleepHours := 8
    sleepQuality := 80
    energyLevel := 6
    stressLevel := .low
    timeAvailableHours := 10
    missedWorkouts7d := 0
    consecutiveHighEffortDays := 0
    sleepDebtHours := 0 }

/-- Witness for C3: 10 minutes remaining is below half of a 30-minute
workout, and at priority 0.5 the decision is DOWNGRADE to the minimal
version. -/
theorem c3_time_starvation_witness :
    (decideTask hiitTask (1/2) [] 10 demoState).action = .downgrade ∧
    (decideTask hiitTask (1/2) [] 10 demoState).adjustedTask =
      some (createMinimalVersion hiitTask) :=
  (c3_time_starvation hiitTask (1/2) [] 10 demoState
    (by norm_num [hiitTask])).1 (by norm_num)

lemma decideFitness_adjusted (task : PlannedTask) (cs : ActiveConstraints)
    (s : HealthState) (p : ℚ) :
    ((decideFitness task cs s p).1 = .downgrade ↔
      (decideFitness task cs s p).2.1.isSome = true) := by
  unfold decideFitness
  repeat' split
  all_goals simp

lemma decideRecovery_adjusted (task : PlannedTask) (cs : ActiveConstraints)
    (s : HealthState) (p : ℚ) :
    ((decideRecovery task cs s p).1 = .downgrade ↔
      (decideRecovery task cs s p).2.1.isSome = true) := by
  unfold decideRecovery
  repeat' split
  all_goals simp

lemma decideMindfulness_adjusted (task : PlannedTask) (cs : ActiveConstraints)
    (s : HealthState) (p : ℚ) :
    ((decideMindfulness task cs s p).1 = .downgrade ↔
      (decideMindfulness task cs s p).2.1.isSome = true) := by
  unfold decideMindfulness
  repeat' split
  all_goals simp

lemma decideNutrition_adjusted (task : PlannedTask) (cs : ActiveConstraints)
    (s : HealthState) (p : ℚ) :
    ((decideNutrition task cs s p).1 = .downgrade →
      (decideNutrition task cs s p).2.1.isSome = true) ∧
    ((decideNutrition task cs s p).2.1.isSome = true →
      (decideNutrition task cs s p).1 = .downgrade ∨
        (decideNutrition task cs s p).1 = .maintain) := by
  unfold decideNutrition
  repeat' split
  all_goals simp

lemma decideTaskTriple_adjusted (task : PlannedTask) (priority : ℚ)
    (cs : ActiveConstraints) (timeRemaining : ℚ) (s : HealthState) :
    ((decideTaskTriple task priority cs timeRemaining s).1 = .downgrade →
      (decideTaskTriple task priority cs timeRemaining s).2.1.isSome = true) ∧
    ((decideTaskTriple task priority cs timeRemaining s).2.1.isSome = true →
      (decideTaskTriple task priority cs timeRemaining s).1 = .downgrade ∨
        (task.domain = .nutrition ∧
          (decideTaskTriple task priority cs timeRemaining s).1 = .maintain)) := by
  unfold decideTaskTriple
  split
  · split
    · exact ⟨(fun _ => rfl), (fun _ => Or.inl rfl)⟩
    · exact ⟨(fun h => nomatch h), (fun h => nomatch h)⟩
  · split
    · have h := decideFitness_adjusted task cs s priority
      exact ⟨h.1, fun hs => Or.inl (h.2 hs)⟩
    · have h := decideRecovery_adjusted task cs s priority
      exact ⟨h.1, fun hs => Or.inl (h.2 hs)⟩
    · have h := decideMindfulness_adjusted task cs s priority
      exact ⟨h.1, fun hs => Or.inl (h.2 hs)⟩
    · have h := decideNutrition_adjusted task cs s priority
      refine ⟨h.1, fun hs => ?_⟩
      rcases h.2 hs with hh | hh
      · exact Or.inl hh
      · rename_i hdom
        exact Or.inr ⟨hdom, hh⟩

lemma applyBoost_adjusted (task : PlannedTask) (priority : ℚ)
    (r : DecisionTriple)
    (h1 : r.1 = .downgrade → r.2.1.isSome = true)
    (h2 : r.2.1.isSome = true →
      r.1 = .downgrade ∨ (task.domain = .nutrition ∧ r.1 = .maintain)) :
    ((applyBoost task priority r).action = .downgrade →
      (applyBoost task priority r).adjustedTask.isSome = true) ∧
    ((applyBoost task priority r).adjustedTask.isSome = true →
      (applyBoost task priority r).action = .downgrade ∨
        ((applyBoost task priority r).domain = .nutrition ∧
          ((applyBoost task priority r).action = .maintain ∨
           (applyBoost task priority r).action = .prioritize))) := by
  unfold applyBoost
  by_cases hb : (35/100 : ℚ) ≤ priority ∧ r.1 = .maintain
  · simp only [if_pos hb]
    refine ⟨(fun h => nomatch h), (fun hs => ?_)⟩
    rcases h2 hs with h | ⟨hn, _⟩
    · rw [hb.2] at h; exact nomatch h
    · exact Or.inr ⟨hn, Or.inr (by trivial)⟩
  · simp only [if_neg hb]
    refine ⟨h1, fun hs => ?_⟩
    rcases h2 hs with h | ⟨hn, hm⟩
    · exact Or.inl h
    · exact Or.inr ⟨hn, Or.inl hm⟩

lemma decideTask_adjusted (task : PlannedTask) (priority : ℚ)
    (cs : ActiveConstraints) (timeRemaining : ℚ) (s : HealthState) :
    ((decideTask task priority cs timeRemaining s).action = .downgrade →
      (decideTask task priority cs timeRemaining s).adjustedTask.isSome = true) ∧
    ((decideTask task priority cs timeRemaining s).adjustedTask.isSome = true →
      (decideTask task priority cs timeRemaining s).action = .downgrade ∨
        ((decideTask task priority cs timeRemaining s).domain = .nutrition ∧
          ((decideTask task priority cs timeRemaining s).action = .maintain ∨
           (decideTask task priority cs timeRemaining s).action = .prioritize))) := by
  have ht := decideTaskTriple_adjusted task priority cs timeRemaining s
  exact applyBoost_adjusted task priority _ ht.1 ht.2

lemma decideStep_decisions (tasks : List PlannedTask)
    (cs : ActiveConstraints) (s : HealthState)
    (ranked : List (HealthDomain × ℚ)) (acc : ℚ × List DomainDecision)
    (hacc : ∀ d ∈ acc.2,
      (d.action = .downgrade → d.adjustedTask.isSome = true) ∧
      (d.adjustedTask.isSome = true →
        d.action = .downgrade ∨ (d.domain = .nutrition ∧
          (d.action = .maintain ∨ d.action = .prioritize)))) :
    ∀ d ∈ (ranked.foldl (decideStep tasks cs s) acc).2,
      (d.action = .downgrade → d.adjustedTask.isSome = true) ∧
      (d.adjustedTask.isSome = true →
        d.action = .downgrade ∨ (d.domain = .nutrition ∧
          (d.action = .maintain ∨ d.action = .prioritize))) := by
  induction ranked generalizing acc with
  | nil => exact hacc
  | cons dp rest ih =>
    rw [List.foldl_cons]
    refine ih _ ?_
    unfold decideStep
    split
    · exact hacc
    · intro d hd
      rcases List.mem_append.1 hd with h | h
      · exact hacc d h
      · rw [List.mem_singleton.1 h]
        exact decideTask_adjusted _ _ _ _ _

/-- C4 (amended): every DOWNGRADE decision emitted by `decide` carries a
non-null adjusted task, and a non-null adjusted task implies the action is
DOWNGRADE except for the nutrition low-energy rule, which emits MAINTAIN
(or, after the priority boost, PRIORITIZE) together with an adjusted
energy-supportive meal.  In particular SKIP and DEFER always carry null. -/
theorem c4_adjusted_iff_downgrade (now : ℚ) (s : HealthState)
    (cs : ActiveConstraints) (profile : DomainPreferences)
    (tasks : List PlannedTask) :
    ∀ d ∈ (engineDecide now s cs profile tasks).decisions,
      (d.action = .downgrade → d.adjustedTask.isSome = true) ∧
      (d.adjustedTask.isSome = true →
        d.action = .downgrade ∨ (d.domain = .nutrition ∧
          (d.action = .maintain ∨ d.action = .prioritize))) := by
  intro d hd
  exact decideStep_decisions tasks cs s _ (0, []) (by simp) d hd

/-- The low-energy constraint set used for the C4 counterexample (severity
0.5, as the evaluator produces for energy level 3 with default
thresholds). -/
def lowEnergyConstraints : ActiveConstraints := [⟨"low_energy", 1/2⟩]

/-- The default user preferences (0.25 for each domain). -/
def defaultPrefs : DomainPreferences := ⟨1/4, 1/4, 1/4, 1/4⟩

/-- A nutrition task used as a concrete input. -/
def mealTask : PlannedTask :=
  ⟨.nutrition, "Meal prep", 30, 5/10, "Cook a balanced dinner"⟩

/-- The energy-supportive adjusted meal the nutrition rule produces for
`mealTask`. -/
def energyMealAdjusted : PlannedTask :=
  ⟨.nutrition, "Energy-supportive meal", 30, 5/10,
    "Focus on complex carbs and lean protein for energy"⟩

/-- The single decision `decide` emits for `mealTask` under the
low-energy constraint set. -/
def nutritionMaintainDecision : DomainDecision :=
  { domain := .nutrition
    action := .maintain
    originalTask := some mealTask
    adjustedTask := some energyMealAdjusted
    reasoning := "Low energy - adjusting meal focus to energy-supportive nutrients"
    priorityScore := 100/393 }

lemma engineDecide_lowEnergy_decisions :
    (engineDecide 0 demoState lowEnergyConstraints defaultPrefs
        [mealTask]).decisions = [nutritionMaintainDecision] := by
  have hpri : ∀ d, calculateAdjustedPriorities lowEnergyConstraints
      (some (prefsOfProfile defaultPrefs)) d =
      (match d with
       | .recovery => 128/393 | .nutrition => 100/393
       | .fitness => 79/393 | .mindfulness => 86/393) := by
    intro d
    cases d <;>
      (simp only [calculateAdjustedPriorities, clampedPriorities,
        clampedTotal, rawPriorities, blendPrefs, applyModifiers,
        basePriorities, constraintModifiers, allDomains, prefsOfProfile,
        lowEnergyConstraints, defaultPrefs, List.foldl_cons, List.foldl_nil,
        List.map_cons, List.map_nil, List.sum_cons, List.sum_nil,
        String.reduceEq, reduceIte]
       norm_num [max_def])
  have hranked : sortDesc (allDomains.map (fun d =>
      (d, calculateAdjustedPriorities lowEnergyConstraints
        (some (prefsOfProfile defaultPrefs)) d))) =
      [(.recovery, 128/393), (.nutrition, 100/393), (.mindfulness, 86/393),
        (.fitness, 79/393)] := by
    simp only [allDomains, List.map_cons, List.map_nil, hpri]
    simp only [sortDesc, List.foldr_cons, List.foldr_nil]
    norm_num [insertDesc]
  have hcap : effectiveCapacity demoState = 360 := by
    norm_num [effectiveCapacity, demoState]
  have hfilRec : [mealTask].filter (fun t => t.domain = HealthDomain.recovery) = [] := by
    simp [mealTask]
  have hfilMind : [mealTask].filter (fun t => t.domain = HealthDomain.mindfulness) = [] := by
    simp [mealTask]
  have hfilFit : [mealTask].filter (fun t => t.domain = HealthDomain.fitness) = [] := by
    simp [mealTask]
  have hfilNut : [mealTask].filter (fun t => t.domain = HealthDomain.nutrition) = [mealTask] := by
    simp [mealTask]
  have hdd : decideTask mealTask (100/393) lowEnergyConstraints
      (360 - 0) demoState =
      applyBoost mealTask (100/393)
        (.maintain,
          some ⟨.nutrition, "Energy-supportive meal", mealTask.durationMinutes,
            mealTask.intensity, "Focus on complex carbs and lean protein for energy"⟩,
          "Low energy - adjusting meal focus to energy-supportive nutrients") := by
    unfold decideTask decideTaskTriple
    rw [if_neg (by norm_num [mealTask])]
    simp only [mealTask]
    unfold decideNutrition
    rw [if_neg (by simp [hasC, lowEnergyConstraints]),
      if_pos (by simp [hasC, lowEnergyConstraints])]
  have h35 : ¬ ((35/100 : ℚ) ≤ 100/393) := by norm_num
  simp only [engineDecide, hranked, List.foldl_cons, List.foldl_nil]
  simp only [decideStep, hfilRec, hfilMind, hfilFit, hfilNut, hcap, hdd]
  simp [applyBoost, h35, nutritionMaintainDecision, energyMealAdjusted,
    mealTask]

/-- C4 counterexample: with only `low_energy` active and a single planned
nutrition task, `decide` emits a MAINTAIN decision whose adjusted task is
non-null (the energy-supportive meal), refuting "every action other than
DOWNGRADE carries a null adjusted task". -/
theorem c4_maintain_with_adjusted :
    (engineDecide 0 demoState lowEnergyConstraints defaultPrefs
        [mealTask]).decisions = [nutritionMaintainDecision] ∧
    nutritionMaintainDecision.action = .maintain ∧
    nutritionMaintainDecision.adjustedTask.isSome = true :=
  ⟨engineDecide_lowEnergy_decisions, rfl, rfl⟩

/-- Witness for C4 (amended) at the concrete low-energy nutrition run. -/
theorem c4_adjusted_iff_downgrade_witness :
    (nutritionMaintainDecision.action = .downgrade →
      nutritionMaintainDecision.adjustedTask.isSome = true) ∧
    (nutritionMaintainDecision.adjustedTask.isSome = true →
      nutritionMaintainDecision.action = .downgrade ∨
        (nutritionMaintainDecision.domain = .nutrition ∧
          (nutritionMaintainDecision.action = .maintain ∨
           nutritionMaintainDecision.action = .prioritize))) :=
  c4_adjusted_iff_downgrade 0 demoState lowEnergyConstraints defaultPrefs
    [mealTask] nutritionMaintainDecision
    (by simp [engineDecide_lowEnergy_decisions])

lemma foldl_no_tasks (cs : ActiveConstraints) (s : HealthState)
    (ranked : List (HealthDomain × ℚ)) (acc : ℚ × List DomainDecision) :
    ranked.foldl (decideStep [] cs s) acc = acc := by
  induction ranked generalizing acc with
  | nil => rfl
  | cons dp rest ih =>
    rw [List.foldl_cons]
    exact ih _

/-- C9 (amended): with an empty planned-task list, `decide` returns an
empty decision list; its reasoning summary is
"All tasks maintained as planned." when no constraints are active, and
"Given N active constraints." otherwise (the constraint-count clause is
emitted even though no task decision changed). -/
theorem c9_empty_tasks (now : ℚ) (s : HealthState) (cs : ActiveConstraints)
    (profile : DomainPreferences) :
    (engineDecide now s cs profile []).decisions = [] ∧
    (engineDecide now s cs profile []).reasoningSummary =
      (if cs = [] then "All tasks maintained as planned."
       else "Given " ++ toString cs.length ++ " active constraints.") := by
  simp only [engineDecide]
  rw [foldl_no_tasks]
  refine ⟨rfl, ?_⟩
  unfold generateSummary
  split
  · rename_i h
    simp [h]
  · rename_i h
    simp only [h, if_neg, List.filter_nil, List.append_nil, ite_true,
      if_true, List.nil_append]
    rw [if_neg (by simp)]
    show String.intercalate "; " [_] ++ "." = _
    rw [show ∀ t : String, String.intercalate "; " [t] = t from fun _ => rfl,
      String.append_assoc]
    rfl

/-- C9 counterexample: with one active constraint and no planned tasks,
the decision list is empty but the summary is "Given 1 active
constraints.", not the claimed "All tasks maintained as planned.". -/
theorem c9_summary_not_maintained :
    (engineDecide 0 demoState [⟨"high_stress", 7/10⟩] defaultPrefs []).decisions = [] ∧
    (engineDecide 0 demoState [⟨"high_stress", 7/10⟩] defaultPrefs []).reasoningSummary =
      "Given 1 active constraints." ∧
    "Given 1 active constraints." ≠ "All tasks maintained as planned." := by
  refine ⟨?_, ?_, by decide⟩
  · simp only [engineDecide]
    rw [foldl_no_tasks]
  · simp only [engineDecide]
    rw [foldl_no_tasks]
    rfl

/-! ## Health council heuristic consensus
(HealthCouncil._heuristic_deliberate in src/agents/health_council.py)

A vote is modelled by the two fields of AgentRecommendation the consensus
aggregation reads: the chosen action string and the confidence. -/

/-- `action_counts[a]`: the summed confidence of the votes choosing `a`. -/
def sumFor (votes : List (String × ℚ)) (a : String) : ℚ :=
  ((votes.filter (fun v => v.1 = a)).map Prod.snd).sum

/-- The keys of the `action_counts` dictionary in insertion order: each
action at its first occurrence in the vote list. -/
def voteKeys (votes : List (String × ℚ)) : List String :=
  votes.foldl (fun acc v => if v.1 ∈ acc then acc else acc ++ [v.1]) []

/-- `max(action_counts, key=action_counts.get)`: Python's `max` scans the
keys in insertion order and replaces the current best only on a strictly
greater value, so a tie is broken in favour of the first-seen action.
(On an empty vote list the Python call would raise `ValueError`; the
embedding returns `""`, and `_heuristic_deliberate` always passes four
votes.) -/
def finalAction (votes : List (String × ℚ)) : String :=
  match voteKeys votes with
  | [] => ""
  | k :: ks =>
    ks.foldl (fun best a =>
      if sumFor votes best < sumFor votes a then a else best) k

/-- `total_confidence = sum(action_counts.values())`. -/
def totalConfidence (votes : List (String × ℚ)) : ℚ :=
  ((voteKeys votes).map (sumFor votes)).sum

/-- `consensus_level = action_counts[final_action] / total_confidence if
total_confidence > 0 else 0`. -/
def consensusLevel (votes : List (String × ℚ)) : ℚ :=
  if 0 < totalConfidence votes then
    sumFor votes (finalAction votes) / totalConfidence votes
  else 0

lemma mem_voteKeys_aux (l : List (String × ℚ)) :
    ∀ (acc : List String) (a : String),
      a ∈ l.foldl (fun acc v => if v.1 ∈ acc then acc else acc ++ [v.1]) acc ↔
        a ∈ acc ∨ a ∈ l.map Prod.fst := by
  induction l with
  | nil => intro acc a; simp
  | cons v l ih =>
    intro acc a
    rw [List.foldl_cons, ih]
    by_cases hv : v.1 ∈ acc
    · rw [if_pos hv]
      simp only [List.map_cons, List.mem_cons]
      constructor
      · rintro (h | h)
        · exact Or.inl h
        · exact Or.inr (Or.inr h)
      · rintro (h | h | h)
        · exact Or.inl h
        · exact Or.inl (h ▸ hv)
        · exact Or.inr h
    · rw [if_neg hv]
      simp only [List.mem_append, List.mem_singleton, List.map_cons,
        List.mem_cons]
      tauto

lemma mem_voteKeys (votes : List (String × ℚ)) (a : String) :
    a ∈ voteKeys votes ↔ a ∈ votes.map Prod.fst := by
  rw [voteKeys, mem_voteKeys_aux]
  simp

lemma nodup_voteKeys_aux (l : List (String × ℚ)) :
    ∀ acc : List String, acc.Nodup →
      (l.foldl (fun acc v => if v.1 ∈ acc then acc else acc ++ [v.1]) acc).Nodup := by
  induction l with
  | nil => intro acc h; exact h
  | cons v l ih =>
    intro acc h
    rw [List.foldl_cons]
    refine ih _ ?_
    by_cases hv : v.1 ∈ acc
    · rw [if_pos hv]; exact h
    · rw [if_neg hv]
      exact h.append (List.nodup_singleton _)
        (fun a ha hb => hv ((List.mem_singleton.1 hb) ▸ ha))

lemma nodup_voteKeys (votes : List (String × ℚ)) : (voteKeys votes).Nodup :=
  nodup_voteKeys_aux votes [] List.nodup_nil

lemma foldl_best_mem (f : String → ℚ) :
    ∀ (ks : List String) (b : String),
      ks.foldl (fun best a => if f best < f a then a else best) b = b ∨
        ks.foldl (fun best a => if f best < f a then a else best) b ∈ ks := by
  intro ks
  induction ks with
  | nil => intro b; exact Or.inl rfl
  | cons a ks ih =>
    intro b
    rw [List.foldl_cons]
    rcases ih (if f b < f a then a else b) with h | h
    · rw [h]
      split
      · exact Or.inr (List.mem_cons_self _ _)
      · exact Or.inl rfl
    · exact Or.inr (List.mem_cons_of_mem _ h)

lemma foldl_best_le (f : String → ℚ) :
    ∀ (ks : List String) (b : String),
      f b ≤ f (ks.foldl (fun best a => if f best < f a then a else best) b) := by
  intro ks
  induction ks with
  | nil => intro b; exact le_refl _
  | cons a ks ih =>
    intro b
    rw [List.foldl_cons]
    refine le_trans ?_ (ih _)
    split
    · rename_i hlt; exact le_of_lt hlt
    · exact le_refl _

lemma foldl_best_ge (f : String → ℚ) :
    ∀ (ks : List String) (b : String), ∀ a ∈ ks,
      f a ≤ f (ks.foldl (fun best a => if f best < f a then a else best) b) := by
  intro ks
  induction ks with
  | nil => intro b a ha; exact absurd ha (List.not_mem_nil a)
  | cons hd ks ih =>
    intro b a ha
    rw [List.foldl_cons]
    rcases List.mem_cons.1 ha with rfl | h
    · refine le_trans ?_ (foldl_best_le f ks _)
      split
      · exact le_refl _
      · rename_i hnlt; exact le_of_not_lt hnlt
    · exact ih _ a h

lemma voteKeys_ne_nil (votes : List (String × ℚ)) (h : votes ≠ []) :
    voteKeys votes ≠ [] := by
  obtain ⟨v, vs, rfl⟩ := List.exists_cons_of_ne_nil h
  intro hk
  have : v.1 ∈ voteKeys (v :: vs) := by
    rw [mem_voteKeys]
    simp
  rw [hk] at this
  exact List.not_mem_nil _ this

lemma finalAction_eq (votes : List (String × ℚ)) (k : String)
    (ks : List String) (hkeys : voteKeys votes = k :: ks) :
    finalAction votes =
      ks.foldl (fun best a =>
        if sumFor votes best < sumFor votes a then a else best) k := by
  unfold finalAction
  rw [hkeys]

lemma finalAction_mem (votes : List (String × ℚ)) (h : votes ≠ []) :
    finalAction votes ∈ voteKeys votes := by
  have hk := voteKeys_ne_nil votes h
  cases hkeys : voteKeys votes with
  | nil => exact absurd hkeys hk
  | cons k ks =>
    rw [finalAction_eq votes k ks hkeys]
    rcases foldl_best_mem (sumFor votes) ks k with h1 | h1
    · rw [h1]; exact List.mem_cons_self _ _
    · exact List.mem_cons_of_mem _ h1

lemma finalAction_max (votes : List (String × ℚ)) (a : String)
    (ha : a ∈ votes.map Prod.fst) :
    sumFor votes a ≤ sumFor votes (finalAction votes) := by
  have hk : a ∈ voteKeys votes := (mem_voteKeys votes a).2 ha
  cases hkeys : voteKeys votes with
  | nil => rw [hkeys] at hk; exact absurd hk (List.not_mem_nil a)
  | cons k ks =>
    rw [finalAction_eq votes k ks hkeys]
    rw [hkeys] at hk
    rcases List.mem_cons.1 hk with rfl | h
    · exact foldl_best_le (sumFor votes) ks a
    · exact foldl_best_ge (sumFor votes) ks k a h

lemma sumFor_nonneg (votes : List (String × ℚ))
    (hconf : ∀ v ∈ votes, 0 ≤ v.2) (a : String) :
    0 ≤ sumFor votes a := by
  refine List.sum_nonneg ?_
  intro x hx
  obtain ⟨v, hv, rfl⟩ := List.mem_map.1 hx
  exact hconf v (List.mem_of_mem_filter hv)

lemma totalConfidence_nonneg (votes : List (String × ℚ))
    (hconf : ∀ v ∈ votes, 0 ≤ v.2) :
    0 ≤ totalConfidence votes := by
  refine List.sum_nonneg ?_
  intro x hx
  obtain ⟨k, _, rfl⟩ := List.mem_map.1 hx
  exact sumFor_nonneg votes hconf k

lemma winner_le_total (votes : List (String × ℚ)) (hne : votes ≠ [])
    (hconf : ∀ v ∈ votes, 0 ≤ v.2) :
    sumFor votes (finalAction votes) ≤ totalConfidence votes := by
  refine List.single_le_sum ?_ _ ?_
  · intro x hx
    obtain ⟨k, _, rfl⟩ := List.mem_map.1 hx
    exact sumFor_nonneg votes hconf k
  · exact List.mem_map_of_mem _ (finalAction_mem votes hne)

/-- C5: for every non-empty vote list with non-negative confidences, the
heuristic consensus picks a final action whose summed confidence is
maximal among all voted actions; the consensus level is the winning sum
divided by the total (and 0 when the total is 0); and the consensus level
lies in [0, 1]. -/
theorem c5_weighted_majority (votes : List (String × ℚ))
    (hne : votes ≠ []) (hconf : ∀ v ∈ votes, 0 ≤ v.2) :
    (∀ a ∈ votes.map Prod.fst,
      sumFor votes a ≤ sumFor votes (finalAction votes)) ∧
    (totalConfidence votes = 0 → consensusLevel votes = 0) ∧
    (totalConfidence votes ≠ 0 →
      consensusLevel votes =
        sumFor votes (finalAction votes) / totalConfidence votes) ∧
    0 ≤ consensusLevel votes ∧ consensusLevel votes ≤ 1 := by
  have htn := totalConfidence_nonneg votes hconf
  refine ⟨finalAction_max votes, ?_, ?_, ?_, ?_⟩
  · intro h0
    unfold consensusLevel
    rw [if_neg (by rw [h0]; exact lt_irrefl 0)]
  · intro hnz
    unfold consensusLevel
    rw [if_pos (lt_of_le_of_ne htn (Ne.symm hnz))]
  · unfold consensusLevel
    split
    · exact div_nonneg (sumFor_nonneg votes hconf _) htn
    · exact le_refl 0
  · unfold consensusLevel
    split
    · rename_i hpos
      rw [div_le_one hpos]
      exact winner_le_total votes hne hconf
    · exact zero_le_one

/-- The four-agent vote list used as the C5 witness. -/
def demoVotes : List (String × ℚ) :=
  [("PROCEED", 2), ("MODIFY", 1), ("MODIFY", 2), ("PROCEED", 2)]

/-- Witness for C5 at a concrete four-vote list. -/
theorem c5_weighted_majority_witness :
    (∀ a ∈ demoVotes.map Prod.fst,
      sumFor demoVotes a ≤ sumFor demoVotes (finalAction demoVotes)) ∧
    0 ≤ consensusLevel demoVotes ∧ consensusLevel demoVotes ≤ 1 := by
  obtain ⟨h1, _, _, h4, h5⟩ := c5_weighted_majority demoVotes
    (by simp [demoVotes]) (by decide)
  exact ⟨h1, h4, h5⟩

lemma sumFor_perm {v1 v2 : List (String × ℚ)} (hp : v1.Perm v2)
    (a : String) : sumFor v1 a = sumFor v2 a :=
  List.Perm.sum_eq (List.Perm.map _ (List.Perm.filter _ hp))

lemma mem_fst_perm {v1 v2 : List (String × ℚ)} (hp : v1.Perm v2)
    (a : String) : a ∈ v1.map Prod.fst ↔ a ∈ v2.map Prod.fst :=
  (hp.map Prod.fst).mem_iff

lemma voteKeys_perm {v1 v2 : List (String × ℚ)} (hp : v1.Perm v2) :
    (voteKeys v1).Perm (voteKeys v2) := by
  rw [List.perm_ext_iff_of_nodup (nodup_voteKeys v1) (nodup_voteKeys v2)]
  intro a
  rw [mem_voteKeys, mem_voteKeys]
  exact mem_fst_perm hp a

lemma totalConfidence_perm {v1 v2 : List (String × ℚ)} (hp : v1.Perm v2) :
    totalConfidence v1 = totalConfidence v2 := by
  unfold totalConfidence
  have hf : sumFor v1 = sumFor v2 := funext (sumFor_perm hp)
  rw [hf]
  exact List.Perm.sum_eq (List.Perm.map _ (voteKeys_perm hp))

lemma winner_sum_perm {v1 v2 : List (String × ℚ)} (hp : v1.Perm v2) :
    sumFor v1 (finalAction v1) = sumFor v2 (finalAction v2) := by
  rcases eq_or_ne v1 [] with rfl | h1
  · rw [hp.symm.eq_nil]
  · have h2 : v2 ≠ [] := fun h => h1 (List.Perm.eq_nil (h ▸ hp))
    have hm1 : finalAction v1 ∈ v1.map Prod.fst :=
      (mem_voteKeys v1 _).1 (finalAction_mem v1 h1)
    have hm2 : finalAction v2 ∈ v2.map Prod.fst :=
      (mem_voteKeys v2 _).1 (finalAction_mem v2 h2)
    have hle1 : sumFor v1 (finalAction v2) ≤ sumFor v1 (finalAction v1) :=
      finalAction_max v1 _ ((mem_fst_perm hp _).2 hm2)
    have hle2 : sumFor v2 (finalAction v1) ≤ sumFor v2 (finalAction v2) :=
      finalAction_max v2 _ ((mem_fst_perm hp _).1 hm1)
    have e1 : sumFor v1 (finalAction v2) = sumFor v2 (finalAction v2) :=
      sumFor_perm hp _
    have e2 : sumFor v2 (finalAction v1) = sumFor v1 (finalAction v1) :=
      (sumFor_perm hp _).symm
    apply le_antisymm
    · rw [← e2]; exact hle2
    · rw [← e1]; exact hle1

/-- C6 (amended): re-ordering the votes never changes the consensus
level, and never changes the final action when one action's summed
confidence strictly exceeds every other's; under an exact tie the final
action is the tied action seen first in vote order, so it can differ
between permutations (see the counterexample). -/
theorem c6_perm_invariance (v1 v2 : List (String × ℚ)) (hp : v1.Perm v2) :
    consensusLevel v1 = consensusLevel v2 ∧
    ∀ a ∈ v1.map Prod.fst,
      (∀ b ∈ v1.map Prod.fst, b ≠ a → sumFor v1 b < sumFor v1 a) →
        finalAction v1 = a ∧ finalAction v2 = a := by
  constructor
  · unfold consensusLevel
    rw [totalConfidence_perm hp, winner_sum_perm hp]
  · intro a ha huniq
    have h1 : v1 ≠ [] := by
      intro h
      rw [h] at ha
      simp at ha
    have h2 : v2 ≠ [] := fun h => h1 (List.Perm.eq_nil (h ▸ hp))
    have hf1 : finalAction v1 = a := by
      by_contra hne
      have hmem : finalAction v1 ∈ v1.map Prod.fst :=
        (mem_voteKeys v1 _).1 (finalAction_mem v1 h1)
      have hlt := huniq _ hmem hne
      have hge := finalAction_max v1 a ha
      exact absurd hge (not_le.2 hlt)
    refine ⟨hf1, ?_⟩
    by_contra hne
    have hmem : finalAction v2 ∈ v2.map Prod.fst :=
      (mem_voteKeys v2 _).1 (finalAction_mem v2 h2)
    have hlt := huniq _ ((mem_fst_perm hp _).2 hmem) hne
    rw [sumFor_perm hp, sumFor_perm hp] at hlt
    have hge := finalAction_max v2 a ((mem_fst_perm hp _).1 ha)
    exact absurd hge (not_le.2 hlt)

/-- The tied four-vote list in one order. -/
def tieVotes1 : List (String × ℚ) :=
  [("PROCEED", 1), ("SKIP", 1), ("PROCEED", 1), ("SKIP", 1)]

/-- The same four votes aggregated in the opposite order. -/
def tieVotes2 : List (String × ℚ) :=
  [("SKIP", 1), ("PROCEED", 1), ("SKIP", 1), ("PROCEED", 1)]

/-- C6 counterexample: the two lists are permutations of each other, both
actions tie at summed confidence 2, yet the final action is "PROCEED" in
one order and "SKIP" in the other: under an exact tie the heuristic
consensus is order-dependent. -/
theorem c6_tie_breaks_by_order :
    tieVotes2.Perm tieVotes1 ∧
    finalAction tieVotes1 = "PROCEED" ∧
    finalAction tieVotes2 = "SKIP" ∧
    sumFor tieVotes1 "PROCEED" = sumFor tieVotes1 "SKIP" := by
  refine ⟨by decide, ?_, ?_, ?_⟩ <;>
    (simp only [finalAction, voteKeys, sumFor, tieVotes1, tieVotes2,
      List.foldl_cons, List.foldl_nil, List.filter_cons, List.filter_nil,
      List.mem_cons, List.mem_singleton, List.not_mem_nil, List.map_cons,
      List.map_nil, List.sum_cons, List.sum_nil, String.reduceEq,
      reduceIte, decide_True, decide_False, or_false, or_true, false_or,
      true_or, List.cons_append, List.nil_append]
     norm_num)

/-- The two-vote lists with a strict winner used as the C6 witness. -/
def strictVotes1 : List (String × ℚ) := [("PROCEED", 2), ("SKIP", 1)]

/-- The strict-winner votes in the opposite order. -/
def strictVotes2 : List (String × ℚ) := [("SKIP", 1), ("PROCEED", 2)]

/-- Witness for C6 (amended): with a strict winner, both orders agree. -/
theorem c6_perm_invariance_witness :
    consensusLevel strictVotes1 = consensusLevel strictVotes2 ∧
    finalAction strictVotes1 = "PROCEED" ∧
    finalAction strictVotes2 = "PROCEED" := by
  obtain ⟨hc, hf⟩ := c6_perm_invariance strictVotes1 strictVotes2 (by decide)
  obtain ⟨h1, h2⟩ := hf "PROCEED" (by decide)
    (by
      simp only [strictVotes1, sumFor, List.forall_mem_cons,
        List.filter_cons, List.filter_nil, List.map_cons, List.map_nil,
        List.sum_cons, List.sum_nil, List.not_mem_nil, String.reduceEq,
        reduceIte, decide_True, decide_False, ne_eq, not_false_eq_true,
        not_true_eq_false, IsEmpty.forall_iff, forall_true_left, and_true,
        true_and]
      norm_num)
  exact ⟨hc, h1, h2⟩

/-! ## Burnout predictor (BurnoutPredictor in src/agents/burnout_predictor.py) -/

/-- A burnout forecast (BurnoutForecast dataclass). -/
structure BurnoutForecast where
  riskScore : ℤ
  daysToCrisis : Option ℤ
  primaryFactors : List String
  interventionNeeded : Bool
  severity : String
deriving DecidableEq, Repr

/-- `BurnoutPredictor._create_low_risk_forecast`. -/
def lowRiskForecast : BurnoutForecast :=
  { riskScore := 10
    daysToCrisis := none
    primaryFactors := ["Insufficient data for analysis"]
    interventionNeeded := false
    severity := "low" }

/-- `BurnoutPredictor._get_recent_decisions` with `days=7`: timestamps are
rationals measured in days and `now` stands for `datetime.now()`. -/
def recentDecisions (now : ℚ) (ds : List TradeOffDecision) :
    List TradeOffDecision :=
  ds.filter (fun d => now - 7 ≤ d.timestamp)

/-- The consecutive-run maximum used by the sleep- and stress-risk scans:
the fold carries (current run length, maximum run length). -/
def maxRun {α : Type} (p : α → Bool) (l : List α) : ℕ :=
  (l.foldl (fun (acc : ℕ × ℕ) a =>
    if p a then (acc.1 + 1, max acc.2 (acc.1 + 1)) else (0, acc.2)) (0, 0)).2

/-- `BurnoutPredictor._calculate_sleep_risk`. -/
def calcSleepRisk (ds : List TradeOffDecision) : ℚ :=
  let sleepHours := ds.filterMap (fun d => d.stateSnapshot.sleepHours)
  if sleepHours = [] then 0
  else
    let avg := sleepHours.sum / (sleepHours.length : ℚ)
    let maxLow := maxRun (fun h : ℚ => decide (h < 6)) sleepHours
    min 100 ((if avg < 13/2 then 40 else if avg < 7 then 20 else 0) +
      (if 3 ≤ maxLow then 50 else if 2 ≤ maxLow then 30 else 0))

/-- Python's `str.upper` on the snapshot's stress string, modelled by
mapping `Char.toUpper` over the characters (core `String.toUpper` computes
the same characters through a positional loop the kernel cannot
evaluate). -/
def strUpper (s : String) : String := String.mk (s.data.map Char.toUpper)

/-- The per-entry stress code of `_calculate_stress_risk`.  The snapshot
always stores the stress level as the enum's string value ("low",
"medium" or "high": StressLevel is a str-subclass enum, so the
`isinstance(level, str)` branch is always taken; the other branch
references the nonexistent `StressLevel.MODERATE` and would raise).
Because the code compares the uppercased string against "MODERATE" while
the enum's middle member is "MEDIUM", a medium entry falls through to the
final else and codes as 1. -/
def stressCode (level : String) : ℤ :=
  if strUpper level = "HIGH" then 3
  else if strUpper level = "MODERATE" then 2
  else 1

/-- `BurnoutPredictor._calculate_stress_risk`. -/
def calcStressRisk (ds : List TradeOffDecision) : ℚ :=
  let levels := ds.filterMap
    (fun d => d.stateSnapshot.stressLevel.map stressCode)
  if levels = [] then 0
  else
    let maxHigh := maxRun (fun l : ℤ => decide (3 ≤ l)) levels
    let avg := ((levels.map (fun l => (l : ℚ))).sum) / (levels.length : ℚ)
    min 100 ((if 5/2 ≤ avg then 40 else 0) +
      (if 3 ≤ maxHigh then 60 else if 2 ≤ maxHigh then 30 else 0))

/-- Python's substring test `needle in hay`. -/
def strContains (hay needle : String) : Prop :=
  needle.data <:+: hay.data

instance (hay needle : String) : Decidable (strContains hay needle) := by
  unfold strContains
  infer_instance

/-- The `recovery_activities` list of `_calculate_recovery_risk`. -/
def recoveryActivities : List String := ["Mindfulness", "Sleep", "Recovery"]

/-- `BurnoutPredictor._calculate_recovery_risk`.  (The substring tests
compare capitalised activity names against the lower-case domain values,
so no domain ever qualifies and the sub-score is always 0 on decisions
produced by the engine; the embedding keeps the test as written.) -/
def calcRecoveryRisk (ds : List TradeOffDecision) : ℚ :=
  let rel := (ds.flatMap (fun d => d.decisions)).filter
    (fun dd => recoveryActivities.any
      (fun r => decide (strContains dd.domain.val r)))
  if rel.length = 0 then 0
  else
    let rate : ℚ :=
      ((rel.filter (fun dd => dd.action = .skip)).length : ℚ) /
        (rel.length : ℚ)
    if 6/10 ≤ rate then 80
    else if 4/10 ≤ rate then 50
    else if 2/10 ≤ rate then 25
    else 0

/-- `BurnoutPredictor._calculate_energy_decline_risk`. -/
def calcEnergyRisk (ds : List TradeOffDecision) : ℚ :=
  let es := ds.filterMap (fun d => d.stateSnapshot.energyLevel)
  if es.length < 3 then 0
  else
    let changes := (es.zip es.tail).map (fun p => p.2 - p.1)
    let avg := changes.sum / (changes.length : ℚ)
    if avg ≤ -2 then 70
    else if avg ≤ -1 then 40
    else if avg < 0 then 20
    else 0

/-- `BurnoutPredictor._estimate_crisis_timeline`. -/
def estimateCrisisTimeline (risk : ℤ) : Option ℤ :=
  if risk < 30 then none
  else if 90 ≤ risk then some 1
  else if 80 ≤ risk then some 2
  else if 70 ≤ risk then some 3
  else if 60 ≤ risk then some 5
  else some 7

/-- `BurnoutPredictor.analyze`.  The Python `int(...)` truncates toward
zero; the four sub-scores are non-negative, so the floor agrees with it. -/
def analyze (now : ℚ) (history : List TradeOffDecision) : BurnoutForecast :=
  if history = [] then lowRiskForecast
  else
    let recent := recentDecisions now history
    if recent.length < 2 then lowRiskForecast
    else
      let sleepRisk := calcSleepRisk recent
      let stressRisk := calcStressRisk recent
      let recoveryRisk := calcRecoveryRisk recent
      let energyRisk := calcEnergyRisk recent
      let riskScore : ℤ := ⌊sleepRisk * (35/100) + stressRisk * (30/100) +
        recoveryRisk * (20/100) + energyRisk * (15/100)⌋
      let factors :=
        (if 60 < sleepRisk then ["Sleep debt accumulation"] else []) ++
        (if 60 < stressRisk then ["Chronic stress pattern"] else []) ++
        (if 60 < recoveryRisk then ["Insufficient recovery"] else []) ++
        (if 60 < energyRisk then ["Rapid energy decline"] else [])
      { riskScore := riskScore
        daysToCrisis := estimateCrisisTimeline riskScore
        primaryFactors :=
          if factors = [] then ["No significant risk factors"] else factors
        interventionNeeded := decide (70 ≤ riskScore)
        severity :=
          if 70 ≤ riskScore then "critical"
          else if 50 ≤ riskScore then "high"
          else if 30 ≤ riskScore then "moderate"
          else "low" }

/-- C8: on an empty history, or one with fewer than two entries in the
trailing 7 days, `analyze` returns the fixed low-risk forecast:
risk score 10, severity "low", no intervention, no days-to-crisis. -/
theorem c8_low_risk_on_short_history (now : ℚ)
    (history : List TradeOffDecision)
    (h : history = [] ∨ (recentDecisions now history).length < 2) :
    (analyze now history).riskScore = 10 ∧
    (analyze now history).severity = "low" ∧
    (analyze now history).interventionNeeded = false ∧
    (analyze now history).daysToCrisis = none := by
  have heq : analyze now history = lowRiskForecast := by
    simp only [analyze]
    rcases h with rfl | hlt
    · rw [if_pos rfl]
    · by_cases hne : history = []
      · rw [if_pos hne]
      · rw [if_neg hne, if_pos hlt]
  rw [heq]
  exact ⟨rfl, rfl, rfl, rfl⟩

/-- Witness for C8 at the empty history. -/
theorem c8_low_risk_witness :
    (analyze 0 []).riskScore = 10 ∧
    (analyze 0 []).severity = "low" ∧
    (analyze 0 []).interventionNeeded = false ∧
    (analyze 0 []).daysToCrisis = none :=
  c8_low_risk_on_short_history 0 [] (Or.inl rfl)

/-- The stress encoding stated by the claim (and spec.md §4.5): the
snapshot's stress string codes as LOW=1, MEDIUM=2, HIGH=3. -/
def stressCodePerClaim (level : String) : ℤ :=
  if level = "high" then 3 else if level = "medium" then 2 else 1

/-- The stress-risk sub-score exactly as the claim states it, differing
from `calcStressRisk` only in the per-entry encoding. -/
def stressRiskPerClaim (ds : List TradeOffDecision) : ℚ :=
  let levels := ds.filterMap
    (fun d => d.stateSnapshot.stressLevel.map stressCodePerClaim)
  if levels = [] then 0
  else
    let maxHigh := maxRun (fun l : ℤ => decide (3 ≤ l)) levels
    let avg := ((levels.map (fun l => (l : ℚ))).sum) / (levels.length : ℚ)
    min 100 ((if 5/2 ≤ avg then 40 else 0) +
      (if 3 ≤ maxHigh then 60 else if 2 ≤ maxHigh then 30 else 0))

/-- A decision whose snapshot records medium stress. -/
def mediumStressDecision : TradeOffDecision :=
  { timestamp := 0
    stateSnapshot :=
      { sleepHours := some 7, stressLevel := some "medium",
        energyLevel := some 5 }
    constraintsActive := []
    decisions := []
    futureImpacts := []
    confidenceScore := 1
    reasoningSummary := "" }

/-- A decision whose snapshot records high stress. -/
def highStressDecision : TradeOffDecision :=
  { timestamp := 0
    stateSnapshot :=
      { sleepHours := some 7, stressLevel := some "high",
        energyLevel := some 5 }
    constraintsActive := []
    decisions := []
    futureImpacts := []
    confidenceScore := 1
    reasoningSummary := "" }

/-- C7: on a window of one medium-stress and one high-stress entry, the
claim's encoding gives codes [2, 3], mean 2.5, hence sub-score 40, but
the code returns 0: it compares the uppercased stress string against
"MODERATE" while the enum's value uppercases to "MEDIUM", so a medium
entry codes as 1 and the mean is 2 < 2.5.  The code contradicts the
three-valued encoding its own branch structure (and the enum it imports)
intends. -/
theorem c7_medium_stress_miscoded :
    calcStressRisk [mediumStressDecision, highStressDecision] = 0 ∧
    stressRiskPerClaim [mediumStressDecision, highStressDecision] = 40 ∧
    stressCode "medium" = 1 ∧
    stressCodePerClaim "medium" = 2 := by
  have hcode : ([mediumStressDecision, highStressDecision].filterMap
      (fun d => d.stateSnapshot.stressLevel.map stressCode)) = [1, 3] := by
    decide
  have hclaim : ([mediumStressDecision, highStressDecision].filterMap
      (fun d => d.stateSnapshot.stressLevel.map stressCodePerClaim)) =
      [2, 3] := by
    decide
  refine ⟨?_, ?_, by decide, by decide⟩
  · simp only [calcStressRisk, hcode, maxRun, List.foldl_cons,
      List.foldl_nil, List.map_cons, List.map_nil, List.sum_cons,
      List.sum_nil, List.length_cons, List.length_nil, reduceCtorEq,
      reduceIte]
    norm_num [min_def]
  · simp only [stressRiskPerClaim, hclaim, maxRun, List.foldl_cons,
      List.foldl_nil, List.map_cons, List.map_nil, List.sum_cons,
      List.sum_nil, List.length_cons, List.length_nil, reduceCtorEq,
      reduceIte]
    norm_num [min_def]

end Equilibria
